import Mathlib

/-!
Shallow embedding of the bank-account service in `app.py` / `models.py`.

The service keeps `Account` rows (integer surrogate `id`, unique string
`account_number`, and a `balance` stored in a SQL `Float` column, i.e. an
IEEE-754 binary64 value).  The request handlers `create_account`, `deposit`
and `withdraw` are embedded below as pure functions from a store (`DB`) and
the decoded request data to the new store and an HTTP-level result.

Python's `decimal.Decimal` is embedded as `PyDec`: a finite decimal keeps the
sign, the coefficient and the exponent of the parsed representation (the
triple returned by `as_tuple()`), and the special values NaN and ±Infinity
are separate constructors.  Python `float` values are dyadic rationals; the
rounding of real results to binary64 (round to nearest, ties to even, normal
range) is embedded as `rnd53`.
-/

namespace BankDB

/-- Exceptions that can escape the handlers unhandled (Flask then returns a
500 response).  `invalidOperation` is `decimal.InvalidOperation` raised by an
ordered comparison on a NaN; `typeError` is the `TypeError` raised when the
non-integer `as_tuple().exponent` of a special value is compared with `-2`;
`integrityError` is the database error raised on commit when the UNIQUE
constraint on `account_number` is violated. -/
inductive PyExc where
  | invalidOperation
  | typeError
  | integrityError
deriving DecidableEq, Repr

/-- Python `decimal.Decimal`: a finite value `±coeff · 10 ^ exp`, a NaN
(quiet or signaling: both signal on ordered comparison), or a signed
infinity.  `sign = true` means negative. -/
inductive PyDec where
  | finite (sign : Bool) (coeff : ℕ) (exp : ℤ)
  | nan
  | inf (sign : Bool)
deriving DecidableEq, Repr

/-- An exact fraction with a positive denominator, used to embed the exact
values of Python `Decimal`s and `float`s.  Arithmetic on it is plain
integer arithmetic (no normalisation), so concrete runs of the handlers
evaluate inside the kernel. -/
structure Frac where
  num : ℤ
  den : ℕ
  den_pos : 0 < den
deriving DecidableEq, Repr

/-- The rational value of a fraction. -/
def Frac.val (x : Frac) : ℚ := (x.num : ℚ) / (x.den : ℚ)

/-- Exact comparison of two fractions (cross-multiplication; sound because
denominators are positive). -/
def Frac.lt (a b : Frac) : Prop := a.num * (b.den : ℤ) < b.num * (a.den : ℤ)

instance (a b : Frac) : Decidable (Frac.lt a b) := by unfold Frac.lt; infer_instance

/-- Exact sum of two fractions. -/
def Frac.add (a b : Frac) : Frac :=
  ⟨a.num * (b.den : ℤ) + b.num * (a.den : ℤ), a.den * b.den, Nat.mul_pos a.den_pos b.den_pos⟩

/-- Exact difference of two fractions. -/
def Frac.sub (a b : Frac) : Frac :=
  ⟨a.num * (b.den : ℤ) - b.num * (a.den : ℤ), a.den * b.den, Nat.mul_pos a.den_pos b.den_pos⟩

/-- Exact value of a finite decimal `±coeff · 10 ^ exp` as a fraction. -/
def dfrac (sign : Bool) (coeff : ℕ) (exp : ℤ) : Frac :=
  if 0 ≤ exp then ⟨(if sign then -(coeff : ℤ) else (coeff : ℤ)) * 10 ^ exp.toNat, 1, Nat.one_pos⟩
  else ⟨if sign then -(coeff : ℤ) else (coeff : ℤ), 10 ^ (-exp).toNat,
    Nat.pos_pow_of_pos _ (by norm_num)⟩

/-- Exact rational value of a finite decimal `±coeff · 10 ^ exp`. -/
def dval (sign : Bool) (coeff : ℕ) (exp : ℤ) : ℚ := (dfrac sign coeff exp).val

/-! ### Parsing a string into a `Decimal`

`Decimal(str(amount))` parses the string with Python's decimal grammar:
optional surrounding whitespace is stripped, underscores are removed, then
`[sign] (digits [. digits] | . digits) [E [sign] digits]`, or a
(case-insensitive) `nan`/`snan` (with optional diagnostic digits) or
`inf`/`infinity` form.  Any other string raises `InvalidOperation`, which the
handlers catch and report as the non-numeric error. -/

def isSpace (c : Char) : Bool := c = ' ' ∨ c = '\t' ∨ c = '\n' ∨ c = '\r'

def lowerChar (c : Char) : Char :=
  if 'A' ≤ c ∧ c ≤ 'Z' then Char.ofNat (c.toNat + 32) else c

/-- Strip surrounding whitespace, lower-case (the grammar is
case-insensitive), and drop underscores, as `Decimal.__new__` does before
matching the grammar. -/
def prep (s : String) : List Char :=
  let l := (s.toList.map lowerChar).dropWhile isSpace
  (l.reverse.dropWhile isSpace).reverse.filter (fun c => c ≠ '_')

def digitVal (c : Char) : ℕ := c.toNat - 48

def natOfDigits (ds : List Char) : ℕ := ds.foldl (fun n c => 10 * n + digitVal c) 0

/-- Parse an optional leading sign; `true` = negative. -/
def parseSign : List Char → Bool × List Char
  | '-' :: r => (true, r)
  | '+' :: r => (false, r)
  | l => (false, l)

/-- Parse the optional exponent part and build the finite decimal from the
integer digits `ip` and the fraction digits `fp`. -/
def finishNumber (sg : Bool) (ip fp : List Char) (rest : List Char) : Option PyDec :=
  match rest with
  | [] => some (.finite sg (natOfDigits (ip ++ fp)) (-(fp.length : ℤ)))
  | 'e' :: r =>
    let (es, r1) := parseSign r
    let ed := r1.takeWhile Char.isDigit
    let r2 := r1.dropWhile Char.isDigit
    if ed = [] ∨ r2 ≠ [] then none
    else
      let ex : ℤ := if es then -(natOfDigits ed : ℤ) else (natOfDigits ed : ℤ)
      some (.finite sg (natOfDigits (ip ++ fp)) (ex - (fp.length : ℤ)))
  | _ => none

/-- Embedding of `Decimal(<string>)`: `none` models the `InvalidOperation`
raised on a string that does not match the decimal grammar. -/
def decOfString (s : String) : Option PyDec :=
  let cs := prep s
  let (sg, r1) := parseSign cs
  if r1 = "inf".toList ∨ r1 = "infinity".toList then some (.inf sg)
  else if r1.take 3 = "nan".toList ∧ (r1.drop 3).all Char.isDigit then some .nan
  else if r1.take 4 = "snan".toList ∧ (r1.drop 4).all Char.isDigit then some .nan
  else
    let ip := r1.takeWhile Char.isDigit
    let r2 := r1.dropWhile Char.isDigit
    match r2 with
    | '.' :: r3 =>
      let fp := r3.takeWhile Char.isDigit
      let r4 := r3.dropWhile Char.isDigit
      if ip = [] ∧ fp = [] then none else finishNumber sg ip fp r4
    | _ => if ip = [] then none else finishNumber sg ip [] r2

/-! ### The validation sequence shared by `deposit` and `withdraw`

The handlers run, in source order: `d < 0`, `d == 0`,
`d.as_tuple().exponent < -2`, `d > MAX_AMOUNT`.  Each primitive below
returns `Except PyExc Bool`, because on the special values some of these
Python expressions raise instead of returning a boolean. -/

/-- The fraction `99999999 / 1`, the exact value of
`MAX_AMOUNT = Decimal(99999999)`. -/
def maxFrac : Frac := ⟨99999999, 1, Nat.one_pos⟩

/-- `d < 0`: an ordered comparison signals `InvalidOperation` on NaN;
`-Infinity < 0` is true. -/
def pyLtZero : PyDec → Except PyExc Bool
  | .nan => .error .invalidOperation
  | .inf sg => .ok sg
  | .finite sg c e => .ok (decide ((dfrac sg c e).num < 0))

/-- `d == 0`: equality on NaN does not signal, it is simply false. -/
def pyEqZero : PyDec → Except PyExc Bool
  | .nan => .ok false
  | .inf _ => .ok false
  | .finite sg c e => .ok (decide ((dfrac sg c e).num = 0))

/-- `d.as_tuple().exponent < -2`: for a special value the exponent field is
a one-character string, and comparing it with the int `-2` raises
`TypeError`. -/
def pyExpLtNeg2 : PyDec → Except PyExc Bool
  | .finite _ _ e => .ok (decide (e < -2))
  | _ => .error .typeError

/-- `d > MAX_AMOUNT` with `MAX_AMOUNT = Decimal(99999999)`. -/
def pyGtMax : PyDec → Except PyExc Bool
  | .nan => .error .invalidOperation
  | .inf sg => .ok (!sg)
  | .finite sg c e => .ok (decide (Frac.lt maxFrac (dfrac sg c e)))

/-- Outcome of the amount-validation sequence. -/
inductive VResult where
  | ok (d : PyDec)
  | notNumeric
  | negative
  | zero
  | tooManyDecimals
  | exceedsMax
  | crash (e : PyExc)
deriving DecidableEq, Repr

/-- The validation sequence of the handlers, applied to the result of
`Decimal(str(amount))` (`none` = the conversion raised `InvalidOperation`,
which the `try`/`except` turns into the non-numeric error).  The later
checks are not exception-guarded in the source, so an exception there
escapes as `crash`. -/
def validateAmount : Option PyDec → VResult
  | none => .notNumeric
  | some d =>
    match pyLtZero d with
    | .error ex => .crash ex
    | .ok true => .negative
    | .ok false =>
      match pyEqZero d with
      | .error ex => .crash ex
      | .ok true => .zero
      | .ok false =>
        match pyExpLtNeg2 d with
        | .error ex => .crash ex
        | .ok true => .tooManyDecimals
        | .ok false =>
          match pyGtMax d with
          | .error ex => .crash ex
          | .ok true => .exceedsMax
          | .ok false => .ok d

/-! ### IEEE-754 binary64 rounding

Stored balances are SQL `Float`s, i.e. binary64 values, and the handlers
mutate them with Python float arithmetic (`account.balance += float(d)`).
A finite binary64 value is a dyadic rational; `rnd53` rounds an exact
rational result to 53 significant bits, round to nearest with ties to even,
which is exact IEEE-754 semantics on the normal finite range (ample for
every monetary value reachable here). -/

/-- Round the nonnegative fraction `n / d` to the nearest integer, ties to
even (`d` positive). -/
def rheN (n d : ℕ) : ℕ :=
  let q := n / d
  let r := n % d
  if 2 * r < d then q
  else if d < 2 * r then q + 1
  else if q % 2 = 0 then q else q + 1

/-- Scale the positive fraction `n / d` by powers of 2 into `[2^52, 2^53)`,
returning the scaled fraction and the binary exponent used.  Fuel bounds the
loop; 1200 covers the entire binary64 normal range. -/
def scaleLoop : ℕ → ℕ → ℕ → ℤ → ℕ × ℕ × ℤ
  | 0, n, d, e => (n, d, e)
  | f + 1, n, d, e =>
    if n < 4503599627370496 * d then scaleLoop f (2 * n) d (e + 1)
    else if 9007199254740992 * d ≤ n then scaleLoop f n (2 * d) (e - 1)
    else (n, d, e)

/-- Round the nonnegative fraction `n / d` to binary64 (round to nearest,
ties to even): scale into `[2^52, 2^53)`, round to an integer significand,
and undo the scaling. -/
def rnd53abs (n d : ℕ) : Frac :=
  if n = 0 then ⟨0, 1, Nat.one_pos⟩
  else
    let p := scaleLoop 1200 n d 0
    let m := rheN p.1 p.2.1
    if 0 ≤ p.2.2 then ⟨(m : ℤ), 2 ^ p.2.2.toNat, Nat.pos_pow_of_pos _ (by norm_num)⟩
    else ⟨(m : ℤ) * 2 ^ (-p.2.2).toNat, 1, Nat.one_pos⟩

/-- Round an exact fraction to binary64: rounding is symmetric in sign. -/
def rnd53 (x : Frac) : Frac :=
  if x.num < 0 then
    let r := rnd53abs (-x.num).toNat x.den
    ⟨-r.num, r.den, r.den_pos⟩
  else rnd53abs x.num.toNat x.den

/-- Python `float(d)` on a validated (finite) decimal: the nearest binary64
to its exact value.  On the non-finite constructors the handlers never reach
a `float()` call, so the value returned for them is irrelevant. -/
def pyfloat : PyDec → Frac
  | .finite sg c e => rnd53 (dfrac sg c e)
  | _ => ⟨0, 1, Nat.one_pos⟩

/-- IEEE binary64 addition of two stored floats: round the exact sum. -/
def fadd (a b : Frac) : Frac := rnd53 (Frac.add a b)

/-- IEEE binary64 subtraction of two stored floats: round the exact
difference. -/
def fsub (a b : Frac) : Frac := rnd53 (Frac.sub a b)

/-! ### The data model and the store (`models.py`) -/

/-- One row of the `accounts` table: integer autoincrement `id`, unique
non-null string `account_number`, and `balance` in a `Float` column
(a binary64 value, embedded as the dyadic rational it denotes). -/
structure Account where
  id : ℕ
  account_number : String
  balance : Frac
deriving DecidableEq, Repr

/-- The persistent store: the list of account rows. -/
structure DB where
  accounts : List Account
deriving DecidableEq, Repr

/-- `db.query(Account).filter_by(account_number=n).first()`. -/
def findByNumber (db : DB) (n : String) : Option Account :=
  db.accounts.find? (fun a => a.account_number = n)

/-- Commit of an in-place mutation of the row found by `first()`: replace
the balance of the first row with the given account number. -/
def setBalance : List Account → String → Frac → List Account
  | [], _, _ => []
  | a :: rest, n, b =>
    if a.account_number = n then { a with balance := b } :: rest
    else a :: setBalance rest n b

/-- Autoincrement surrogate id assigned by the storage engine on insert. -/
def nextId (db : DB) : ℕ := (db.accounts.map Account.id).foldr max 0 + 1

/-! ### The request handlers (`app.py`) -/

/-- The decoded `balance` field of a `POST /accounts` body: `noJson` models
`request.get_json()` returning `None`, `absent` a JSON object without a
`balance` key (the handler then uses the default `0.0`), and `given b` a
supplied JSON number, i.e. the binary64 value `b`. -/
inductive BalanceField where
  | noJson
  | absent
  | given (b : Frac)
deriving DecidableEq, Repr

/-- Result of `create_account`. -/
inductive CResult where
  | created (number : String) (balance : Frac)
  | badPayload
  | crash (e : PyExc)
deriving DecidableEq, Repr

/-- The `POST /accounts` handler.  `r` is the value drawn by
`random.randint(1000, 9999)` (kept as an explicit oracle input).  The
handler generates `str(r)` as the account number and commits, with no
collision check of its own; the UNIQUE constraint on `account_number` makes
the commit raise an `IntegrityError` if the number already exists, which the
handler does not catch.  The initial balance is taken from the body without
any validation. -/
def create_account (db : DB) (r : ℕ) (body : BalanceField) : DB × CResult :=
  match body with
  | .noJson => (db, .badPayload)
  | .absent =>
    let num := toString r
    if db.accounts.any (fun a => a.account_number = num) then (db, .crash .integrityError)
    else (⟨db.accounts ++ [⟨nextId db, num, ⟨0, 1, Nat.one_pos⟩⟩]⟩, .created num ⟨0, 1, Nat.one_pos⟩)
  | .given b =>
    let num := toString r
    if db.accounts.any (fun a => a.account_number = num) then (db, .crash .integrityError)
    else (⟨db.accounts ++ [⟨nextId db, num, b⟩]⟩, .created num b)

/-- The decoded `amount` field of a deposit/withdraw body: `missing` models
a `None` JSON body or a body without an `amount` key, and `raw conv` a
present field, with `conv` the result of `Decimal(str(amount))` (`none` if
that conversion raised `InvalidOperation`). -/
inductive AmountField where
  | missing
  | raw (conv : Option PyDec)
deriving DecidableEq, Repr

/-- HTTP-level result of a deposit/withdraw request: a 200 with the new
balance, a 4xx with the exact error message, or an unhandled exception
(rendered by Flask as a 500). -/
inductive DWResult where
  | balance (b : Frac)
  | error (status : ℕ) (msg : String)
  | crash (e : PyExc)
deriving DecidableEq, Repr

/-- The `POST /accounts/<n>/deposit` handler: look the account up (404 if
absent), check the body, run the validation sequence, then
`account.balance += float(d)` and commit. -/
def deposit (db : DB) (n : String) (body : AmountField) : DB × DWResult :=
  match findByNumber db n with
  | none => (db, .error 404 "Account not found")
  | some acct =>
    match body with
    | .missing => (db, .error 400 "Invalid or missing JSON payload or \x27amount\x27")
    | .raw conv =>
      match validateAmount conv with
      | .notNumeric =>
        (db, .error 400 "Deposit failed - Amount must be numeric and have at most 2 decimal places")
      | .negative => (db, .error 400 "Amount cannot be negative")
      | .zero => (db, .error 400 "Amount must be greater than zero")
      | .tooManyDecimals =>
        (db, .error 400 "Deposit failed - Amount must have at most 2 decimal places")
      | .exceedsMax => (db, .error 400 "Amount exceeds maximum allowed value")
      | .crash ex => (db, .crash ex)
      | .ok d =>
        let nb := fadd acct.balance (pyfloat d)
        (⟨setBalance db.accounts n nb⟩, .balance nb)

/-- The `POST /accounts/<n>/withdraw` handler: same lookup, body check and
validation sequence as `deposit` (with the withdrawal message variants),
then the insufficiency check `account.balance < float(d)` and
`account.balance -= float(d)`. -/
def withdraw (db : DB) (n : String) (body : AmountField) : DB × DWResult :=
  match findByNumber db n with
  | none => (db, .error 404 "Account not found")
  | some acct =>
    match body with
    | .missing => (db, .error 400 "Invalid or missing JSON payload or \x27amount\x27")
    | .raw conv =>
      match validateAmount conv with
      | .notNumeric =>
        (db, .error 400 "Withdrawal failed - Amount must be numeric and have at most 2 decimal places")
      | .negative => (db, .error 400 "Amount cannot be negative")
      | .zero => (db, .error 400 "Amount must be greater than zero")
      | .tooManyDecimals =>
        (db, .error 400 "Withdrawal failed - Amount must have at most 2 decimal places")
      | .exceedsMax => (db, .error 400 "Amount exceeds maximum allowed value")
      | .crash ex => (db, .crash ex)
      | .ok d =>
        if Frac.lt acct.balance (pyfloat d) then (db, .error 400 "Insufficient balance")
        else
          let nb := fsub acct.balance (pyfloat d)
          (⟨setBalance db.accounts n nb⟩, .balance nb)

/-- The `GET /accounts/<n>/balance` handler: pure lookup. -/
def get_balance (db : DB) (n : String) : DWResult :=
  match findByNumber db n with
  | none => .error 404 "Account not found"
  | some acct => .balance acct.balance

/-! ### Derived notions used in the statements -/

/-- Every stored balance is nonnegative. -/
def allNonneg (db : DB) : Prop := ∀ a ∈ db.accounts, 0 ≤ a.balance.val

/-- Account numbers are pairwise distinct across the store. -/
def uniqueNumbers (db : DB) : Prop :=
  db.accounts.Pairwise (fun a b => a.account_number ≠ b.account_number)

/-- The 400-level error messages a deposit with a convertible amount can
produce. -/
def depositErrMsgs : List String :=
  ["Deposit failed - Amount must be numeric and have at most 2 decimal places",
   "Amount cannot be negative",
   "Amount must be greater than zero",
   "Deposit failed - Amount must have at most 2 decimal places",
   "Amount exceeds maximum allowed value"]

/-- The 400-level error messages a withdrawal with a convertible amount can
produce. -/
def withdrawErrMsgs : List String :=
  ["Withdrawal failed - Amount must be numeric and have at most 2 decimal places",
   "Amount cannot be negative",
   "Amount must be greater than zero",
   "Withdrawal failed - Amount must have at most 2 decimal places",
   "Amount exceeds maximum allowed value",
   "Insufficient balance"]

/-- A sample account with balance 0.00. -/
def acct1 : Account := ⟨1, "1234", ⟨0, 1, Nat.one_pos⟩⟩

/-- A sample store holding just `acct1`. -/
def db1 : DB := ⟨[acct1]⟩

/-! ### Bridge lemmas between the fraction representation and ℚ -/

theorem Frac.den_cast_pos (x : Frac) : (0 : ℚ) < (x.den : ℚ) := by
  exact_mod_cast x.den_pos

theorem Frac.val_lt_val (a b : Frac) : a.val < b.val ↔ Frac.lt a b := by
  unfold Frac.val Frac.lt
  rw [div_lt_div_iff₀ a.den_cast_pos b.den_cast_pos]
  exact_mod_cast Iff.rfl

theorem Frac.val_neg_iff (x : Frac) : x.val < 0 ↔ x.num < 0 := by
  unfold Frac.val
  rw [div_lt_iff₀ x.den_cast_pos, zero_mul]
  exact_mod_cast Iff.rfl

theorem Frac.val_eq_zero_iff (x : Frac) : x.val = 0 ↔ x.num = 0 := by
  unfold Frac.val
  rw [div_eq_zero_iff]
  constructor
  · rintro (h | h)
    · exact_mod_cast h
    · exact absurd h (ne_of_gt x.den_cast_pos)
  · intro h
    exact Or.inl (by exact_mod_cast h)

theorem Frac.val_pos_iff (x : Frac) : 0 < x.val ↔ 0 < x.num := by
  unfold Frac.val
  rw [lt_div_iff₀ x.den_cast_pos, zero_mul]
  exact_mod_cast Iff.rfl

theorem Frac.val_nonneg_iff (x : Frac) : 0 ≤ x.val ↔ 0 ≤ x.num := by
  unfold Frac.val
  rw [le_div_iff₀ x.den_cast_pos, zero_mul]
  exact_mod_cast Iff.rfl

theorem maxFrac_val : maxFrac.val = 99999999 := by
  norm_num [maxFrac, Frac.val]

theorem dval_lt_max_iff (s : Bool) (c : ℕ) (e : ℤ) :
    (99999999 : ℚ) < dval s c e ↔ Frac.lt maxFrac (dfrac s c e) := by
  rw [← maxFrac_val, dval, Frac.val_lt_val]

/-! ### Characterisation of the validation sequence -/

theorem validateAmount_finite (s : Bool) (c : ℕ) (e : ℤ) :
    validateAmount (some (.finite s c e)) =
      if (dfrac s c e).num < 0 then .negative
      else if (dfrac s c e).num = 0 then .zero
      else if e < -2 then .tooManyDecimals
      else if Frac.lt maxFrac (dfrac s c e) then .exceedsMax
      else .ok (.finite s c e) := by
  by_cases h1 : (dfrac s c e).num < 0
  · simp [validateAmount, pyLtZero, h1]
  by_cases h2 : (dfrac s c e).num = 0
  · simp [validateAmount, pyLtZero, pyEqZero, h1, h2]
  by_cases h3 : e < -2
  · simp [validateAmount, pyLtZero, pyEqZero, pyExpLtNeg2, h1, h2, h3]
  by_cases h4 : Frac.lt maxFrac (dfrac s c e)
  · simp [validateAmount, pyLtZero, pyEqZero, pyExpLtNeg2, pyGtMax, h1, h2, h3, h4]
  · simp [validateAmount, pyLtZero, pyEqZero, pyExpLtNeg2, pyGtMax, h1, h2, h3, h4]

theorem validateAmount_ok_inv {conv : Option PyDec} {d : PyDec}
    (h : validateAmount conv = .ok d) :
    ∃ s c e, d = .finite s c e ∧ 0 < (dfrac s c e).num ∧ ¬e < -2 ∧
      ¬Frac.lt maxFrac (dfrac s c e) := by
  match conv with
  | none => simp [validateAmount] at h
  | some .nan => simp [validateAmount, pyLtZero] at h
  | some (.inf sg) =>
    cases sg <;> simp [validateAmount, pyLtZero, pyEqZero, pyExpLtNeg2] at h
  | some (.finite s c e) =>
    rw [validateAmount_finite] at h
    refine ⟨s, c, e, ?_⟩
    split_ifs at h with h1 h2 h3 h4
    cases h
    exact ⟨rfl, lt_of_le_of_ne (not_lt.mp h1) (Ne.symm h2), h3, h4⟩

/-! ### Sign of binary64 rounding -/

theorem rnd53abs_num_nonneg (n d : ℕ) : 0 ≤ (rnd53abs n d).num := by
  unfold rnd53abs
  split
  · simp
  · by_cases h : 0 ≤ (scaleLoop 1200 n d 0).2.2 <;>
      simp only [h, if_pos, if_neg, not_false_iff] <;> positivity

theorem rnd53_num_nonneg {x : Frac} (h : 0 ≤ x.num) : 0 ≤ (rnd53 x).num := by
  unfold rnd53
  rw [if_neg (not_lt.mpr h)]
  exact rnd53abs_num_nonneg _ _

theorem fadd_num_nonneg {a b : Frac} (ha : 0 ≤ a.num) (hb : 0 ≤ b.num) :
    0 ≤ (fadd a b).num := by
  apply rnd53_num_nonneg
  have hda : (0 : ℤ) ≤ (a.den : ℤ) := Int.natCast_nonneg _
  have hdb : (0 : ℤ) ≤ (b.den : ℤ) := Int.natCast_nonneg _
  exact add_nonneg (mul_nonneg ha hdb) (mul_nonneg hb hda)

theorem fsub_num_nonneg {a b : Frac} (h : ¬Frac.lt a b) : 0 ≤ (fsub a b).num := by
  apply rnd53_num_nonneg
  exact sub_nonneg.mpr (not_lt.mp h)

/-! ### Store lemmas -/

theorem findByNumber_mem {db : DB} {n : String} {a : Account}
    (h : findByNumber db n = some a) : a ∈ db.accounts ∧ a.account_number = n := by
  unfold findByNumber at h
  refine ⟨List.mem_of_find?_eq_some h, ?_⟩
  have := List.find?_some h
  simpa using this

theorem setBalance_length (l : List Account) (n : String) (b : Frac) :
    (setBalance l n b).length = l.length := by
  induction l with
  | nil => rfl
  | cons a rest ih =>
    unfold setBalance
    split
    · simp
    · simpa using ih

theorem mem_setBalance {l : List Account} {n : String} {b : Frac} {a' : Account}
    (h : a' ∈ setBalance l n b) :
    a' ∈ l ∨ ∃ a ∈ l, a' = { a with balance := b } := by
  induction l with
  | nil => simp [setBalance] at h
  | cons a rest ih =>
    unfold setBalance at h
    split at h
    · rcases List.mem_cons.mp h with h' | h'
      · exact Or.inr ⟨a, List.mem_cons_self .., h'⟩
      · exact Or.inl (List.mem_cons_of_mem _ h')
    · rcases List.mem_cons.mp h with h' | h'
      · exact Or.inl (h' ▸ List.mem_cons_self ..)
      · rcases ih h' with h'' | ⟨x, hx, hx'⟩
        · exact Or.inl (List.mem_cons_of_mem _ h'')
        · exact Or.inr ⟨x, List.mem_cons_of_mem _ hx, hx'⟩

theorem setBalance_get? (l : List Account) (n : String) (b : Frac) (i : ℕ) :
    (setBalance l n b)[i]? = l[i]? ∨
    ∃ a, l[i]? = some a ∧ a.account_number = n ∧
      (setBalance l n b)[i]? = some { a with balance := b } := by
  induction l generalizing i with
  | nil => exact Or.inl rfl
  | cons a rest ih =>
    unfold setBalance
    split
    next h =>
      match i with
      | 0 => exact Or.inr ⟨a, by simp, h, by simp⟩
      | i + 1 => exact Or.inl (by simp)
    next h =>
      match i with
      | 0 => exact Or.inl (by simp)
      | i + 1 => simpa using ih i

/-! ### Outcome of validation, rule by rule -/

theorem val_gt_max_iff (x : Frac) : (99999999 : ℚ) < x.val ↔ Frac.lt maxFrac x := by
  rw [← maxFrac_val, Frac.val_lt_val]

theorem validate_negative_iff (s : Bool) (c : ℕ) (e : ℤ) :
    validateAmount (some (.finite s c e)) = .negative ↔ dval s c e < 0 := by
  unfold dval
  rw [validateAmount_finite, Frac.val_neg_iff]
  split_ifs with h1 h2 h3 h4 <;> simp_all

theorem validate_zero_iff (s : Bool) (c : ℕ) (e : ℤ) :
    validateAmount (some (.finite s c e)) = .zero ↔ dval s c e = 0 := by
  unfold dval
  rw [validateAmount_finite, Frac.val_eq_zero_iff]
  split_ifs with h1 h2 h3 h4 <;> simp_all <;> omega

theorem validate_tooMany_iff (s : Bool) (c : ℕ) (e : ℤ) :
    validateAmount (some (.finite s c e)) = .tooManyDecimals ↔
      0 < dval s c e ∧ e < -2 := by
  unfold dval
  rw [validateAmount_finite, Frac.val_pos_iff]
  split_ifs with h1 h2 h3 h4 <;> simp_all <;> omega

theorem validate_exceedsMax_iff (s : Bool) (c : ℕ) (e : ℤ) :
    validateAmount (some (.finite s c e)) = .exceedsMax ↔
      0 < dval s c e ∧ ¬e < -2 ∧ 99999999 < dval s c e := by
  unfold dval
  rw [validateAmount_finite, Frac.val_pos_iff, val_gt_max_iff]
  split_ifs with h1 h2 h3 h4 <;> simp_all <;> omega

theorem validate_ok_of {s : Bool} {c : ℕ} {e : ℤ} (h1 : 0 < dval s c e)
    (h2 : ¬e < -2) (h3 : dval s c e ≤ 99999999) :
    validateAmount (some (.finite s c e)) = .ok (.finite s c e) := by
  have hp : 0 < (dfrac s c e).num := (Frac.val_pos_iff _).mp h1
  have hm : ¬Frac.lt maxFrac (dfrac s c e) := by
    rw [← Frac.val_lt_val, maxFrac_val]
    exact not_lt.mpr h3
  rw [validateAmount_finite, if_neg (by omega), if_neg (by omega), if_neg h2, if_neg hm]

/-! ### Shape of the handlers' store updates -/

theorem deposit_accounts (db : DB) (n : String) (body : AmountField) :
    (deposit db n body).1 = db ∨
    ∃ acct conv d, findByNumber db n = some acct ∧ body = .raw conv ∧
      validateAmount conv = .ok d ∧
      (deposit db n body).1 = ⟨setBalance db.accounts n (fadd acct.balance (pyfloat d))⟩ := by
  cases hf : findByNumber db n with
  | none => simp [deposit, hf]
  | some acct =>
    cases body with
    | missing => simp [deposit, hf]
    | raw conv =>
      cases hv : validateAmount conv with
      | ok d =>
        refine Or.inr ⟨acct, conv, d, rfl, rfl, hv, ?_⟩
        simp [deposit, hf, hv]
      | notNumeric => simp [deposit, hf, hv]
      | negative => simp [deposit, hf, hv]
      | zero => simp [deposit, hf, hv]
      | tooManyDecimals => simp [deposit, hf, hv]
      | exceedsMax => simp [deposit, hf, hv]
      | crash ex => simp [deposit, hf, hv]

theorem withdraw_accounts (db : DB) (n : String) (body : AmountField) :
    (withdraw db n body).1 = db ∨
    ∃ acct conv d, findByNumber db n = some acct ∧ body = .raw conv ∧
      validateAmount conv = .ok d ∧ ¬Frac.lt acct.balance (pyfloat d) ∧
      (withdraw db n body).1 = ⟨setBalance db.accounts n (fsub acct.balance (pyfloat d))⟩ := by
  cases hf : findByNumber db n with
  | none => simp [withdraw, hf]
  | some acct =>
    cases body with
    | missing => simp [withdraw, hf]
    | raw conv =>
      cases hv : validateAmount conv with
      | ok d =>
        by_cases hlt : Frac.lt acct.balance (pyfloat d)
        · left
          simp [withdraw, hf, hv, hlt]
        · refine Or.inr ⟨acct, conv, d, rfl, rfl, hv, hlt, ?_⟩
          simp [withdraw, hf, hv, hlt]
      | notNumeric => simp [withdraw, hf, hv]
      | negative => simp [withdraw, hf, hv]
      | zero => simp [withdraw, hf, hv]
      | tooManyDecimals => simp [withdraw, hf, hv]
      | exceedsMax => simp [withdraw, hf, hv]
      | crash ex => simp [withdraw, hf, hv]

theorem frame_of_setBalance {l : List Account} {n : String} {b : Frac} {i : ℕ}
    {a : Account} (h : l[i]? = some a) :
    ∀ a', (setBalance l n b)[i]? = some a' →
      a'.id = a.id ∧ a'.account_number = a.account_number ∧
      (a.account_number ≠ n → a' = a) := by
  intro a' h'
  rcases setBalance_get? l n b i with hcase | ⟨x, hx, hxn, hx'⟩
  · rw [hcase, h] at h'
    cases h'
    exact ⟨rfl, rfl, fun _ => rfl⟩
  · rw [hx] at h
    cases h
    rw [hx'] at h'
    cases h'
    exact ⟨rfl, rfl, fun hne => absurd hxn hne⟩

/-! ### The claims -/

set_option maxRecDepth 100000

/-- C1: the claim says a valid deposit of `a` on balance `b` persists exactly
`b + a` to 2 decimal places with no representation drift.  The code stores
balances as binary64 and adds with `account.balance += float(d)`, which
drifts: an account created with JSON balance 0.1 holds the binary64
`7205759403792794 / 2^56`; depositing "0.2" yields
`5404319552844596 / 2^54 = 0.30000000000000004…`, which is neither `3/10`
nor the stored balance plus `2/10`. -/
theorem C1_deposit_drift :
    (deposit ⟨[⟨1, "1234", rnd53 (dfrac false 1 (-1))⟩]⟩ "1234"
        (.raw (decOfString "0.2"))).2
      = .balance ⟨5404319552844596, 18014398509481984, by norm_num⟩ ∧
    rnd53 (dfrac false 1 (-1)) = ⟨7205759403792794, 72057594037927936, by norm_num⟩ ∧
    Frac.val ⟨5404319552844596, 18014398509481984, by norm_num⟩ ≠ 3 / 10 ∧
    Frac.val ⟨5404319552844596, 18014398509481984, by norm_num⟩
      ≠ Frac.val ⟨7205759403792794, 72057594037927936, by norm_num⟩ + 2 / 10 := by
  refine ⟨by decide, by decide, ?_, ?_⟩ <;> norm_num [Frac.val]

/-- C2: the claim says a valid withdrawal of `a ≤ b` yields exactly `b − a`,
and `a > b` fails with InsufficientBalance leaving the balance unchanged.
With binary64 balances both parts break: an account created with JSON
balance 0.3 holds `5404319552844595 / 2^54 < 3/10`; withdrawing "0.1"
succeeds with `7205759403792793 / 2^55 = 0.19999999999999998…` (neither
`1/5` nor stored-balance minus `1/10`), and withdrawing "0.3" — an exact
amount strictly greater than the stored balance — succeeds with balance 0
instead of failing with InsufficientBalance. -/
theorem C2_withdraw_drift :
    rnd53 (dfrac false 3 (-1)) = ⟨5404319552844595, 18014398509481984, by norm_num⟩ ∧
    Frac.val ⟨5404319552844595, 18014398509481984, by norm_num⟩ < 3 / 10 ∧
    (withdraw ⟨[⟨1, "1234", rnd53 (dfrac false 3 (-1))⟩]⟩ "1234"
        (.raw (decOfString "0.1"))).2
      = .balance ⟨7205759403792793, 36028797018963968, by norm_num⟩ ∧
    Frac.val ⟨7205759403792793, 36028797018963968, by norm_num⟩ ≠ 1 / 5 ∧
    Frac.val ⟨7205759403792793, 36028797018963968, by norm_num⟩
      ≠ Frac.val ⟨5404319552844595, 18014398509481984, by norm_num⟩ - 1 / 10 ∧
    (withdraw ⟨[⟨1, "1234", rnd53 (dfrac false 3 (-1))⟩]⟩ "1234"
        (.raw (decOfString "0.3"))).2
      = .balance ⟨0, 1, Nat.one_pos⟩ := by
  refine ⟨by decide, ?_, by decide, ?_, ?_, by decide⟩ <;> norm_num [Frac.val]

/-- C3 counterexample: `create_account` does not validate the caller-supplied
initial balance, so creating an account with balance −5 succeeds (201) and
leaves a negative persisted balance, contradicting the claim for the
account-creation case. -/
theorem C3_counterexample :
    create_account ⟨[]⟩ 1234 (.given ⟨-5, 1, Nat.one_pos⟩)
      = (⟨[⟨1, "1234", ⟨-5, 1, Nat.one_pos⟩⟩]⟩, .created "1234" ⟨-5, 1, Nat.one_pos⟩) ∧
    Frac.val ⟨-5, 1, Nat.one_pos⟩ < 0 := by
  refine ⟨by decide, ?_⟩
  norm_num [Frac.val]

/-- C3 amended: balances stay nonnegative across every successful operation
provided account creation is given a nonnegative initial balance (the code
does not validate it): creation with a nonnegative or defaulted balance,
deposits, and withdrawals all preserve nonnegativity of every stored
balance. -/
theorem C3_amended :
    (∀ (db : DB) (r : ℕ) (b : Frac), 0 ≤ b.val → allNonneg db →
      allNonneg (create_account db r (.given b)).1) ∧
    (∀ (db : DB) (r : ℕ), allNonneg db → allNonneg (create_account db r .absent).1) ∧
    (∀ (db : DB) (r : ℕ), allNonneg db → allNonneg (create_account db r .noJson).1) ∧
    (∀ (db : DB) (n : String) (body : AmountField), allNonneg db →
      allNonneg (deposit db n body).1) ∧
    (∀ (db : DB) (n : String) (body : AmountField), allNonneg db →
      allNonneg (withdraw db n body).1) := by
  have hpf : ∀ {conv d}, validateAmount conv = .ok d → 0 ≤ (pyfloat d).num := by
    intro conv d hv
    obtain ⟨s, c, e, rfl, hpos, -, -⟩ := validateAmount_ok_inv hv
    exact rnd53_num_nonneg (le_of_lt hpos)
  refine ⟨?_, ?_, ?_, ?_, ?_⟩
  · intro db r b hb hall
    simp only [create_account]
    split
    · exact hall
    · intro a ha
      rcases List.mem_append.mp ha with ha | ha
      · exact hall a ha
      · simp only [List.mem_singleton] at ha
        subst ha
        exact hb
  · intro db r hall
    simp only [create_account]
    split
    · exact hall
    · intro a ha
      rcases List.mem_append.mp ha with ha | ha
      · exact hall a ha
      · simp only [List.mem_singleton] at ha
        subst ha
        norm_num [Frac.val]
  · intro db r hall
    exact hall
  · intro db n body hall
    rcases deposit_accounts db n body with heq | ⟨acct, conv, d, hf, -, hv, heq⟩
    · rw [heq]; exact hall
    · rw [heq]
      intro a ha
      rcases mem_setBalance ha with ha | ⟨x, hx, rfl⟩
      · exact hall a ha
      · have hacct : 0 ≤ acct.balance.num :=
          (Frac.val_nonneg_iff _).mp (hall acct (findByNumber_mem hf).1)
        exact (Frac.val_nonneg_iff _).mpr (fadd_num_nonneg hacct (hpf hv))
  · intro db n body hall
    rcases withdraw_accounts db n body with heq | ⟨acct, conv, d, hf, -, hv, hlt, heq⟩
    · rw [heq]; exact hall
    · rw [heq]
      intro a ha
      rcases mem_setBalance ha with ha | ⟨x, hx, rfl⟩
      · exact hall a ha
      · exact (Frac.val_nonneg_iff _).mpr (fsub_num_nonneg hlt)

/-- C3 witness: the amended preservation theorem applied to a concrete store
with balance 0.00: creating an account with balance 5, depositing 0.2 and
withdrawing 0.2 all keep every balance nonnegative. -/
theorem C3_amended_witness :
    allNonneg db1 ∧
    allNonneg (create_account db1 5678 (.given ⟨5, 1, Nat.one_pos⟩)).1 ∧
    allNonneg (deposit db1 "1234" (.raw (decOfString "0.2"))).1 ∧
    allNonneg (withdraw db1 "1234" (.raw (decOfString "0.2"))).1 := by
  have hdb : allNonneg db1 := by
    intro a ha
    simp only [db1, acct1, List.mem_singleton] at ha
    subst ha
    norm_num [Frac.val]
  exact ⟨hdb, C3_amended.1 db1 5678 ⟨5, 1, Nat.one_pos⟩ (by norm_num [Frac.val]) hdb,
    C3_amended.2.2.2.1 db1 "1234" _ hdb, C3_amended.2.2.2.2 db1 "1234" _ hdb⟩

/-- C4: the three checks run in order.  Existence first: on an unknown
account number both handlers return 404 "Account not found" for every body
whatsoever, so an invalid amount on a nonexistent account yields 404, not
400.  Amount validation before balance sufficiency: on an existing account,
whatever its balance, a withdrawal whose amount fails validation returns
that validation error (never "Insufficient balance" — even when the balance
would also be insufficient), and conversely "Insufficient balance" is
returned only for an amount that passed the whole validation sequence and
exceeds the stored balance. -/
theorem C4_check_order :
    (∀ (db : DB) (n : String) (body : AmountField), findByNumber db n = none →
      deposit db n body = (db, .error 404 "Account not found") ∧
      withdraw db n body = (db, .error 404 "Account not found")) ∧
    (∀ (db : DB) (n : String) (a : Account) (conv : Option PyDec),
      findByNumber db n = some a →
      (validateAmount conv = .notNumeric →
        withdraw db n (.raw conv)
          = (db, .error 400
              "Withdrawal failed - Amount must be numeric and have at most 2 decimal places")) ∧
      (validateAmount conv = .negative →
        withdraw db n (.raw conv) = (db, .error 400 "Amount cannot be negative")) ∧
      (validateAmount conv = .zero →
        withdraw db n (.raw conv) = (db, .error 400 "Amount must be greater than zero")) ∧
      (validateAmount conv = .tooManyDecimals →
        withdraw db n (.raw conv)
          = (db, .error 400 "Withdrawal failed - Amount must have at most 2 decimal places")) ∧
      (validateAmount conv = .exceedsMax →
        withdraw db n (.raw conv) = (db, .error 400 "Amount exceeds maximum allowed value")) ∧
      (withdraw db n (.raw conv) = (db, .error 400 "Insufficient balance") →
        ∃ d, validateAmount conv = .ok d ∧ Frac.lt a.balance (pyfloat d))) := by
  constructor
  · intro db n body h
    constructor <;> simp [deposit, withdraw, h]
  · intro db n a conv h
    refine ⟨?_, ?_, ?_, ?_, ?_, ?_⟩
    · intro hv
      simp [withdraw, h, hv]
    · intro hv
      simp [withdraw, h, hv]
    · intro hv
      simp [withdraw, h, hv]
    · intro hv
      simp [withdraw, h, hv]
    · intro hv
      simp [withdraw, h, hv]
    · intro hw
      cases hv : validateAmount conv with
      | ok d =>
        by_cases hlt : Frac.lt a.balance (pyfloat d)
        · exact ⟨d, rfl, hlt⟩
        · simp [withdraw, h, hv, hlt] at hw
      | notNumeric => simp [withdraw, h, hv] at hw
      | negative => simp [withdraw, h, hv] at hw
      | zero => simp [withdraw, h, hv] at hw
      | tooManyDecimals => simp [withdraw, h, hv] at hw
      | exceedsMax => simp [withdraw, h, hv] at hw
      | crash ex => simp [withdraw, h, hv] at hw

/-- C4 witness: on an empty store, a deposit with a non-convertible amount
and a withdrawal with amount "abc" on account "0000" both give 404; and on
the sample account with balance 0.00, withdrawing "1.005" — an amount that
is both invalid (3 decimal places) and larger than the balance — returns
the decimal-places validation error, not "Insufficient balance". -/
theorem C4_witness :
    deposit ⟨[]⟩ "0000" (.raw none) = (⟨[]⟩, .error 404 "Account not found") ∧
    withdraw ⟨[]⟩ "0000" (.raw (decOfString "abc"))
      = (⟨[]⟩, .error 404 "Account not found") ∧
    Frac.lt acct1.balance (pyfloat (.finite false 1005 (-3))) ∧
    withdraw db1 "1234" (.raw (decOfString "1.005"))
      = (db1, .error 400 "Withdrawal failed - Amount must have at most 2 decimal places") :=
  ⟨(C4_check_order.1 ⟨[]⟩ "0000" (.raw none) rfl).1,
    (C4_check_order.1 ⟨[]⟩ "0000" (.raw (decOfString "abc")) rfl).2,
    by decide,
    (C4_check_order.2 db1 "1234" acct1 (decOfString "1.005") (by decide)).2.2.2.1
      (by decide)⟩

/-- C5: the validation rules run in the fixed order NotNumeric, Negative,
Zero, TooManyDecimals, ExceedsMaximum, and the reported kind is the first
failing rule: Negative is reported exactly when the value is negative (even
with 3 decimal places, e.g. "-1.005"), Zero exactly when the value is zero
and not negative (e.g. "0.000" with 3 decimal places reports Zero),
TooManyDecimals only once the value is positive, and ExceedsMaximum only
once the decimals rule also passed; a failed conversion reports
NotNumeric. -/
theorem C5_validation_order :
    (∀ (s : Bool) (c : ℕ) (e : ℤ),
      (validateAmount (some (.finite s c e)) = .negative ↔ dval s c e < 0) ∧
      (validateAmount (some (.finite s c e)) = .zero ↔ dval s c e = 0) ∧
      (validateAmount (some (.finite s c e)) = .tooManyDecimals ↔
        0 < dval s c e ∧ e < -2) ∧
      (validateAmount (some (.finite s c e)) = .exceedsMax ↔
        0 < dval s c e ∧ ¬e < -2 ∧ 99999999 < dval s c e)) ∧
    validateAmount none = .notNumeric ∧
    validateAmount (decOfString "-1.005") = .negative ∧
    validateAmount (decOfString "0.000") = .zero :=
  ⟨fun s c e => ⟨validate_negative_iff s c e, validate_zero_iff s c e,
      validate_tooMany_iff s c e, validate_exceedsMax_iff s c e⟩,
    rfl, by decide, by decide⟩

/-- C6 counterexample: the code rejects by the *representation's* exponent
(`as_tuple().exponent < -2`), not by the exact value's scale.  The input
"0.100" parses to the decimal with coefficient 100 and exponent −3; its
exact value is 1/10, which has one digit after the decimal point, yet
validation fails with TooManyDecimals.  Also, "12.3" is accepted but a
deposit of it is persisted as the nearest binary64, not as exactly 12.30. -/
theorem C6_counterexample :
    decOfString "0.100" = some (.finite false 100 (-3)) ∧
    dval false 100 (-3) = 1 / 10 ∧
    validateAmount (decOfString "0.100") = .tooManyDecimals ∧
    decOfString "12.3" = some (.finite false 123 (-1)) ∧
    (deposit db1 "1234" (.raw (decOfString "12.3"))).2
      = .balance ⟨6924284427082138, 562949953421312, by norm_num⟩ ∧
    Frac.val ⟨6924284427082138, 562949953421312, by norm_num⟩ ≠ 123 / 10 := by
  refine ⟨by decide, ?_, by decide, by decide, by decide, ?_⟩ <;>
    norm_num [dval, dfrac, Frac.val, show Int.toNat 3 = 3 from rfl]

/-- C6 amended: validation fails with TooManyDecimals exactly when the
amount is positive (earlier rules pass) and the parsed representation
carries more than two fractional digits (exponent < −2) — so "1.005" is
rejected and "12.3" accepted, but an input such as "0.100", whose exact
value 0.1 has scale 1, is rejected as well; accepted amounts are persisted
as the nearest binary64, not as exact two-decimal values. -/
theorem C6_amended :
    (∀ (s : Bool) (c : ℕ) (e : ℤ),
      validateAmount (some (.finite s c e)) = .tooManyDecimals ↔
        0 < dval s c e ∧ e < -2) ∧
    validateAmount (decOfString "1.005") = .tooManyDecimals ∧
    validateAmount (decOfString "12.3") = .ok (.finite false 123 (-1)) :=
  ⟨validate_tooMany_iff, by decide, by decide⟩

/-- C7 counterexample: `create_account` draws `str(randint(1000, 9999))` and
commits with no collision check of its own; when the drawn number already
exists ("1234" here) the commit violates the UNIQUE constraint and the
request dies with an unhandled IntegrityError instead of the claimed
checked-before-commit unique assignment. -/
theorem C7_counterexample :
    create_account db1 1234 (.given ⟨0, 1, Nat.one_pos⟩)
      = (db1, .crash .integrityError) := by
  decide

/-- C7 amended: account numbers are drawn at random with no pre-commit
collision check in the handler; uniqueness is enforced only by the store's
UNIQUE constraint at commit time.  A colliding draw makes the whole request
fail with an integrity error and leaves the store unchanged, while a
successful creation appends an account whose number did not occur in the
store, so pairwise-distinct account numbers are preserved. -/
theorem C7_amended :
    (∀ (db : DB) (r : ℕ) (b : Frac),
      (∃ a ∈ db.accounts, a.account_number = toString r) →
      create_account db r (.given b) = (db, .crash .integrityError)) ∧
    (∀ (db : DB) (r : ℕ) (b : Frac) (db' : DB) (num : String) (bal : Frac),
      create_account db r (.given b) = (db', .created num bal) →
      num = toString r ∧ bal = b ∧
      (∀ a ∈ db.accounts, a.account_number ≠ num) ∧
      db'.accounts = db.accounts ++ [⟨nextId db, num, b⟩] ∧
      (uniqueNumbers db → uniqueNumbers db')) := by
  constructor
  · intro db r b hex
    have hany : (db.accounts.any fun a => a.account_number = toString r) = true := by
      rcases hex with ⟨a, ha, hn⟩
      exact List.any_eq_true.mpr ⟨a, ha, by simp [hn]⟩
    simp [create_account, hany]
  · intro db r b db' num bal h
    simp only [create_account] at h
    split at h
    · injection h with h1 h2
      cases h2
    · next hany =>
      injection h with h1 h2
      injection h2 with h3 h4
      have hnotin : ∀ a ∈ db.accounts, a.account_number ≠ toString r := by
        intro a ha heq'
        exact hany (List.any_eq_true.mpr ⟨a, ha, by simp [heq']⟩)
      subst h3
      subst h4
      refine ⟨rfl, rfl, hnotin, by rw [← h1], ?_⟩
      intro hu
      rw [← h1]
      unfold uniqueNumbers at hu ⊢
      rw [List.pairwise_append]
      refine ⟨hu, List.pairwise_singleton _ _, ?_⟩
      intro x hx y hy
      simp only [List.mem_singleton] at hy
      subst hy
      exact hnotin x hx

/-- C7 witness: on the sample store, the colliding draw 1234 fails with the
integrity error, and a successful creation with draw 5678 keeps the account
numbers pairwise distinct. -/
theorem C7_witness :
    create_account db1 1234 (.given ⟨3, 1, Nat.one_pos⟩) = (db1, .crash .integrityError) ∧
    uniqueNumbers (⟨db1.accounts ++ [⟨2, "5678", ⟨3, 1, Nat.one_pos⟩⟩]⟩ : DB) := by
  have h2 := (C7_amended.2 db1 5678 ⟨3, 1, Nat.one_pos⟩
      ⟨db1.accounts ++ [⟨2, "5678", ⟨3, 1, Nat.one_pos⟩⟩]⟩ "5678" ⟨3, 1, Nat.one_pos⟩
      (by decide)).2.2.2.2
  refine ⟨C7_amended.1 db1 1234 ⟨3, 1, Nat.one_pos⟩ ⟨acct1, by simp [db1], by decide⟩, ?_⟩
  · have hu : uniqueNumbers db1 := by
      simp [uniqueNumbers, db1]
    have := h2 hu
    simpa using this

/-- C8: on an existing account each failed validation or insufficiency
condition produces exactly the specified message: "Amount cannot be
negative", "Amount must be greater than zero", "Withdrawal failed - Amount
must have at most 2 decimal places", "Amount exceeds maximum allowed value",
and "Insufficient balance". -/
theorem C8_error_messages (db : DB) (n : String) (a : Account)
    (h : findByNumber db n = some a) :
    (∀ (s : Bool) (c : ℕ) (e : ℤ), dval s c e < 0 →
      deposit db n (.raw (some (.finite s c e)))
        = (db, .error 400 "Amount cannot be negative") ∧
      withdraw db n (.raw (some (.finite s c e)))
        = (db, .error 400 "Amount cannot be negative")) ∧
    (∀ (s : Bool) (c : ℕ) (e : ℤ), dval s c e = 0 →
      deposit db n (.raw (some (.finite s c e)))
        = (db, .error 400 "Amount must be greater than zero") ∧
      withdraw db n (.raw (some (.finite s c e)))
        = (db, .error 400 "Amount must be greater than zero")) ∧
    (∀ (s : Bool) (c : ℕ) (e : ℤ), 0 < dval s c e → e < -2 →
      withdraw db n (.raw (some (.finite s c e)))
        = (db, .error 400 "Withdrawal failed - Amount must have at most 2 decimal places")) ∧
    (∀ (s : Bool) (c : ℕ) (e : ℤ), 0 < dval s c e → ¬e < -2 → 99999999 < dval s c e →
      deposit db n (.raw (some (.finite s c e)))
        = (db, .error 400 "Amount exceeds maximum allowed value") ∧
      withdraw db n (.raw (some (.finite s c e)))
        = (db, .error 400 "Amount exceeds maximum allowed value")) ∧
    (∀ (s : Bool) (c : ℕ) (e : ℤ), 0 < dval s c e → ¬e < -2 → dval s c e ≤ 99999999 →
      Frac.lt a.balance (pyfloat (.finite s c e)) →
      withdraw db n (.raw (some (.finite s c e)))
        = (db, .error 400 "Insufficient balance")) := by
  refine ⟨?_, ?_, ?_, ?_, ?_⟩
  · intro s c e hneg
    have hv := (validate_negative_iff s c e).mpr hneg
    constructor <;> simp [deposit, withdraw, h, hv]
  · intro s c e hzero
    have hv := (validate_zero_iff s c e).mpr hzero
    constructor <;> simp [deposit, withdraw, h, hv]
  · intro s c e hpos hexp
    have hv := (validate_tooMany_iff s c e).mpr ⟨hpos, hexp⟩
    simp [withdraw, h, hv]
  · intro s c e hpos hexp hmax
    have hv := (validate_exceedsMax_iff s c e).mpr ⟨hpos, hexp, hmax⟩
    constructor <;> simp [deposit, withdraw, h, hv]
  · intro s c e hpos hexp hmax hlt
    have hv := validate_ok_of hpos hexp hmax
    simp [withdraw, h, hv, hlt]

/-- C8 witness: each of the five messages observed on the sample store —
amount −5, amount 0, withdrawal of 1.005, deposit of 100000000, and a
withdrawal of 5 from balance 0.00. -/
theorem C8_witness :
    deposit db1 "1234" (.raw (some (.finite true 5 0)))
      = (db1, .error 400 "Amount cannot be negative") ∧
    withdraw db1 "1234" (.raw (some (.finite false 0 2)))
      = (db1, .error 400 "Amount must be greater than zero") ∧
    withdraw db1 "1234" (.raw (some (.finite false 1005 (-3))))
      = (db1, .error 400 "Withdrawal failed - Amount must have at most 2 decimal places") ∧
    deposit db1 "1234" (.raw (some (.finite false 100000000 0)))
      = (db1, .error 400 "Amount exceeds maximum allowed value") ∧
    withdraw db1 "1234" (.raw (some (.finite false 5 0)))
      = (db1, .error 400 "Insufficient balance") := by
  have h : findByNumber db1 "1234" = some acct1 := by decide
  have hC := C8_error_messages db1 "1234" acct1 h
  exact ⟨(hC.1 true 5 0 (by norm_num [dval, dfrac, Frac.val])).1,
    (hC.2.1 false 0 2 (by norm_num [dval, dfrac, Frac.val])).2,
    hC.2.2.1 false 1005 (-3) (by norm_num [dval, dfrac, Frac.val]) (by norm_num),
    (hC.2.2.2.1 false 100000000 0 (by norm_num [dval, dfrac, Frac.val]) (by norm_num)
      (by norm_num [dval, dfrac, Frac.val])).1,
    hC.2.2.2.2 false 5 0 (by norm_num [dval, dfrac, Frac.val]) (by norm_num)
      (by norm_num [dval, dfrac, Frac.val]) (by decide)⟩

/-- C9 counterexample: the special strings convert to a Decimal, but the
later unguarded checks raise — "NaN" makes the `d < 0` comparison raise an
unhandled InvalidOperation, and "Infinity" makes the exponent check raise an
unhandled TypeError — so the request crashes (HTTP 500) instead of
completing with a success or specified 400 response. -/
theorem C9_counterexample :
    decOfString "NaN" = some .nan ∧
    (deposit db1 "1234" (.raw (decOfString "NaN"))).2 = .crash .invalidOperation ∧
    decOfString "Infinity" = some (.inf false) ∧
    (withdraw db1 "1234" (.raw (decOfString "Infinity"))).2 = .crash .typeError := by
  exact ⟨by decide, by decide, by decide, by decide⟩

/-- C9 amended: for every amount that converts to a *finite* Decimal, a
deposit or withdrawal on an existing account completes without an unhandled
exception, returning a 200 with the new balance or one of the specified 400
errors; the non-finite conversions "NaN" and "Infinity" instead crash (see
the counterexample). -/
theorem C9_amended (db : DB) (n : String) (a : Account) (s : Bool) (c : ℕ) (e : ℤ)
    (h : findByNumber db n = some a) :
    ((∃ b, (deposit db n (.raw (some (.finite s c e)))).2 = .balance b) ∨
     (∃ m, m ∈ depositErrMsgs ∧
       (deposit db n (.raw (some (.finite s c e)))).2 = .error 400 m)) ∧
    ((∃ b, (withdraw db n (.raw (some (.finite s c e)))).2 = .balance b) ∨
     (∃ m, m ∈ withdrawErrMsgs ∧
       (withdraw db n (.raw (some (.finite s c e)))).2 = .error 400 m)) := by
  have hchar := validateAmount_finite s c e
  split_ifs at hchar with h1 h2 h3 h4
  · exact ⟨Or.inr ⟨"Amount cannot be negative", by simp [depositErrMsgs],
        by simp [deposit, h, hchar]⟩,
      Or.inr ⟨"Amount cannot be negative", by simp [withdrawErrMsgs],
        by simp [withdraw, h, hchar]⟩⟩
  · exact ⟨Or.inr ⟨"Amount must be greater than zero", by simp [depositErrMsgs],
        by simp [deposit, h, hchar]⟩,
      Or.inr ⟨"Amount must be greater than zero", by simp [withdrawErrMsgs],
        by simp [withdraw, h, hchar]⟩⟩
  · exact ⟨Or.inr ⟨"Deposit failed - Amount must have at most 2 decimal places",
        by simp [depositErrMsgs], by simp [deposit, h, hchar]⟩,
      Or.inr ⟨"Withdrawal failed - Amount must have at most 2 decimal places",
        by simp [withdrawErrMsgs], by simp [withdraw, h, hchar]⟩⟩
  · exact ⟨Or.inr ⟨"Amount exceeds maximum allowed value", by simp [depositErrMsgs],
        by simp [deposit, h, hchar]⟩,
      Or.inr ⟨"Amount exceeds maximum allowed value", by simp [withdrawErrMsgs],
        by simp [withdraw, h, hchar]⟩⟩
  · refine ⟨Or.inl ⟨fadd a.balance (pyfloat (.finite s c e)),
        by simp [deposit, h, hchar]⟩, ?_⟩
    by_cases hlt : Frac.lt a.balance (pyfloat (.finite s c e))
    · exact Or.inr ⟨"Insufficient balance", by simp [withdrawErrMsgs],
        by simp [withdraw, h, hchar, hlt]⟩
    · exact Or.inl ⟨fsub a.balance (pyfloat (.finite s c e)),
        by simp [withdraw, h, hchar, hlt]⟩

/-- C9 witness: the amended theorem at the sample store with the finite
amount 5. -/
theorem C9_witness :
    ((∃ b, (deposit db1 "1234" (.raw (some (.finite false 5 0)))).2 = .balance b) ∨
     (∃ m, m ∈ depositErrMsgs ∧
       (deposit db1 "1234" (.raw (some (.finite false 5 0)))).2 = .error 400 m)) ∧
    ((∃ b, (withdraw db1 "1234" (.raw (some (.finite false 5 0)))).2 = .balance b) ∨
     (∃ m, m ∈ withdrawErrMsgs ∧
       (withdraw db1 "1234" (.raw (some (.finite false 5 0)))).2 = .error 400 m)) :=
  C9_amended db1 "1234" acct1 false 5 0 (by decide)

/-- C10: a deposit or withdraw request on account `n`, whatever its outcome,
leaves the number of rows unchanged, never changes any row's `id` or
`account_number`, and leaves every row whose account number differs from `n`
entirely unchanged. -/
theorem C10_frame (db : DB) (n : String) (body : AmountField) (i : ℕ) (a : Account)
    (h : db.accounts[i]? = some a) :
    (deposit db n body).1.accounts.length = db.accounts.length ∧
    (withdraw db n body).1.accounts.length = db.accounts.length ∧
    (∀ a', (deposit db n body).1.accounts[i]? = some a' →
      a'.id = a.id ∧ a'.account_number = a.account_number ∧
      (a.account_number ≠ n → a' = a)) ∧
    (∀ a', (withdraw db n body).1.accounts[i]? = some a' →
      a'.id = a.id ∧ a'.account_number = a.account_number ∧
      (a.account_number ≠ n → a' = a)) := by
  refine ⟨?_, ?_, ?_, ?_⟩
  · rcases deposit_accounts db n body with heq | ⟨acct, conv, d, -, -, -, heq⟩ <;>
      rw [heq] <;> simp [setBalance_length]
  · rcases withdraw_accounts db n body with heq | ⟨acct, conv, d, -, -, -, -, heq⟩ <;>
      rw [heq] <;> simp [setBalance_length]
  · intro a' h'
    rcases deposit_accounts db n body with heq | ⟨acct, conv, d, -, -, -, heq⟩
    · rw [heq, h] at h'
      cases h'
      exact ⟨rfl, rfl, fun _ => rfl⟩
    · rw [heq] at h'
      exact frame_of_setBalance h a' h'
  · intro a' h'
    rcases withdraw_accounts db n body with heq | ⟨acct, conv, d, -, -, -, -, heq⟩
    · rw [heq, h] at h'
      cases h'
      exact ⟨rfl, rfl, fun _ => rfl⟩
    · rw [heq] at h'
      exact frame_of_setBalance h a' h'

/-- C10 witness: the frame theorem at the sample store, a deposit of 5 on
account "1234", row 0. -/
theorem C10_witness :
    (deposit db1 "1234" (.raw (decOfString "5"))).1.accounts.length
        = db1.accounts.length ∧
    (withdraw db1 "1234" (.raw (decOfString "5"))).1.accounts.length
        = db1.accounts.length ∧
    (∀ a', (deposit db1 "1234" (.raw (decOfString "5"))).1.accounts[0]? = some a' →
      a'.id = acct1.id ∧ a'.account_number = acct1.account_number ∧
      (acct1.account_number ≠ "1234" → a' = acct1)) ∧
    (∀ a', (withdraw db1 "1234" (.raw (decOfString "5"))).1.accounts[0]? = some a' →
      a'.id = acct1.id ∧ a'.account_number = acct1.account_number ∧
      (acct1.account_number ≠ "1234" → a' = acct1)) :=
  C10_frame db1 "1234" (.raw (decOfString "5")) 0 acct1 (by decide)

end BankDB
